import Mathlib

/-!
Verification of the penny background orchestrator: probe confidence
classification, confidence aggregation, retry/backoff policy, and the
three-tier escalation decision, shallowly embedded from
penny/orchestrator/probes.py, penny/orchestrator/loop.py,
penny/orchestrator/escalation.py and penny/database.py.

Findings are Python dicts in the source; here a Finding records the three
fields the orchestrator core reads (probe, confidence, error).  An Option
at the outer layer models presence of the dict key: for the error field,
none means the key is absent, some none means the key is present with
value None, and some (some s) means the key holds the string s.
-/

namespace Penny

/-- Result of one probe invocation (the fields of the probe result dict
that the aggregator and the loop read). -/
structure Finding where
  probe : String
  confidence : Option ℚ := none
  error : Option (Option String) := none
deriving DecidableEq

/-- Weight used inside calculate_confidence (probes.py lines 470-474):
0.5 when the error KEY is in the finding dict, 1.0 otherwise. -/
def finding_weight (f : Finding) : ℚ :=
  if f.error.isSome then 1/2 else 1

/-- probes.py calculate_confidence: weighted average accumulated in a loop
over the findings, returning 0.0 on an empty list, and weighted_sum /
total_weight if total_weight > 0 else 0.0. -/
def calculate_confidence (findings : List Finding) : ℚ :=
  if findings.isEmpty then 0
  else
    let acc := findings.foldl
      (fun acc f =>
        (acc.1 + f.confidence.getD 0 * finding_weight f, acc.2 + finding_weight f))
      ((0 : ℚ), (0 : ℚ))
    if 0 < acc.2 then acc.1 / acc.2 else 0

/-- The aggregation formula as the spec states it (section 4.3): the
quotient of the sum of confidence times weight by the sum of weights,
with 0.0 for the empty list. -/
def spec_aggregate (findings : List Finding) : ℚ :=
  if findings.isEmpty then 0
  else (findings.map (fun f => f.confidence.getD 0 * finding_weight f)).sum /
       (findings.map finding_weight).sum

/-- database.py append_finding lines 731-733: confidence is recomputed as
the plain average of the confidence values of the findings that carry a
confidence key, 0.0 when no finding does. -/
def append_finding_confidence (findings : List Finding) : ℚ :=
  let confidences :=
    (findings.filter (fun f => f.confidence.isSome)).map (fun f => f.confidence.getD 0)
  if confidences.length ≠ 0 then confidences.sum / (confidences.length : ℚ) else 0

lemma finding_weight_pos (f : Finding) : 0 < finding_weight f := by
  unfold finding_weight
  split <;> norm_num

lemma conf_foldl_eq (l : List Finding) (a b : ℚ) :
    l.foldl
      (fun acc f =>
        (acc.1 + f.confidence.getD 0 * finding_weight f, acc.2 + finding_weight f))
      (a, b)
    = (a + (l.map (fun f => f.confidence.getD 0 * finding_weight f)).sum,
       b + (l.map finding_weight).sum) := by
  induction l generalizing a b with
  | nil => simp
  | cons x xs ih => simp [ih, add_assoc]

lemma weight_sum_pos (l : List Finding) (h : l ≠ []) :
    0 < (l.map finding_weight).sum := by
  cases l with
  | nil => exact absurd rfl h
  | cons x xs =>
      simp only [List.map_cons, List.sum_cons]
      have hx := finding_weight_pos x
      have hxs : 0 ≤ (xs.map finding_weight).sum := by
        apply List.sum_nonneg
        intro q hq
        obtain ⟨f, _, rfl⟩ := List.mem_map.mp hq
        exact le_of_lt (finding_weight_pos f)
      linarith

lemma calculate_confidence_eq_spec (l : List Finding) :
    calculate_confidence l = spec_aggregate l := by
  unfold calculate_confidence spec_aggregate
  by_cases h : l.isEmpty
  · simp [h]
  · simp only [h, if_false]
    rw [conf_foldl_eq]
    have hne : l ≠ [] := by
      intro hnil; rw [hnil] at h; simp at h
    have hpos := weight_sum_pos l hne
    simp [hpos]

/-- Task status values used by the orchestrator. -/
inductive TaskStatus where
  | pending
  | running
  | completed
  | failed
deriving DecidableEq

/-- A background task row as the loop reads and writes it
(database.py _row_to_background_task; id, timestamps other than
next_run_at, and priority are not read by the processing logic modelled
here; next_run_at timestamps are modelled as natural-number instants). -/
structure Task where
  status : TaskStatus
  findings : List Finding
  confidence : ℚ
  retry_count : ℕ
  max_retries : ℕ
  next_run_at : Option ℕ := none
  error_message : Option String := none
deriving DecidableEq

/-- loop.py HIGH_CONFIDENCE_THRESHOLD default 0.8. -/
def HIGH_CONFIDENCE_THRESHOLD : ℚ := 4/5

/-- escalation.py MEDIUM_CONFIDENCE default 0.6. -/
def MEDIUM_CONFIDENCE : ℚ := 3/5

/-- database.py append_finding: append the finding and persist the
recomputed plain-average confidence (status is rewritten unchanged). -/
def append_finding (t : Task) (f : Finding) : Task :=
  let findings := t.findings ++ [f]
  { t with findings := findings,
           confidence := append_finding_confidence findings }

/-- loop.py line 103: a probe result counts as failed when its error
value is not None (so an absent key or a present key holding None both
count as no error here) or its confidence (default 0) equals 0. -/
def probe_result_failed (f : Finding) : Bool :=
  (match f.error with
   | some (some _) => true
   | _ => false)
  || (f.confidence.getD 0 == 0)

/-- loop.py lines 102-105: all probes failed; the guard for empty
probe_results yields True, as does all of an empty list. -/
def all_failed (probe_results : List Finding) : Bool :=
  probe_results.all probe_result_failed

/-- loop.py _process_task lines 79-146 (the non-exception path): mark
running, append each probe result (each append persisting the
plain-average confidence), recompute the weighted aggregate over all
findings, then branch on the high threshold and on all_failed.  Both the
max-retries branch and the below-max branch write status pending with the
aggregate confidence; the retry branch increments retry_count first and
neither sets next_run_at. -/
def process_task (t : Task) (probe_results : List Finding) : Task :=
  let t0 : Task := { t with status := .running }
  let t1 := probe_results.foldl append_finding t0
  let confidence := calculate_confidence t1.findings
  if HIGH_CONFIDENCE_THRESHOLD ≤ confidence then
    { t1 with status := .pending, confidence := confidence }
  else if all_failed probe_results then
    let t2 := { t1 with retry_count := t1.retry_count + 1 }
    if t2.max_retries ≤ t2.retry_count then
      { t2 with status := .pending, confidence := confidence }
    else
      { t2 with status := .pending, confidence := confidence }
  else
    { t1 with status := .pending, confidence := confidence }

/-- loop.py _process_task lines 148-164 (the exception path): increment
retry_count; when it has reached max_retries mark the task failed with
the exception text, otherwise increment again with next_run_at set 60
seconds ahead (which also writes status pending). -/
def process_task_exception (t : Task) (message : String) (now : ℕ) : Task :=
  let t0 : Task := { t with status := .running }
  let t1 := { t0 with retry_count := t0.retry_count + 1 }
  if t1.max_retries ≤ t1.retry_count then
    { t1 with status := .failed, error_message := some message }
  else
    { t1 with retry_count := t1.retry_count + 1,
              next_run_at := some (now + 60),
              status := .pending }

/-- database.py get_pending_background_tasks WHERE clause: status pending
and next_run_at null or not after now. -/
def pending_eligible (t : Task) (now : ℕ) : Bool :=
  t.status == .pending
  && (match t.next_run_at with
      | none => true
      | some n => decide (n ≤ now))

/-- database.py get_tasks_ready_for_escalation WHERE clause: status
pending and confidence at least the threshold. -/
def ready_for_escalation (t : Task) (threshold : ℚ) : Bool :=
  t.status == .pending && decide (threshold ≤ t.confidence)

/-- probes.py PROBE_TIMEOUT default 30 seconds. -/
def PROBE_TIMEOUT : ℕ := 30

/-- Python str.strip() with no argument: remove leading and trailing
whitespace, modelled at the code-point level. -/
def py_strip (s : String) : String :=
  ⟨((s.data.dropWhile Char.isWhitespace).reverse.dropWhile Char.isWhitespace).reverse⟩

/-- Python str.startswith(p): code-point level starts-with test. -/
def py_startswith (s p : String) : Bool :=
  p.data.isPrefixOf s.data

/-- Python slicing s[:n] at the code-point level. -/
def py_take (s : String) (n : ℕ) : String :=
  ⟨s.data.take n⟩

/-- How the grep fallback subprocess run can end, with its stdout already
parsed into per-file (path, count) lines as _fallback_grep lines 183-195
does. -/
inductive FallbackExec where
  | completed (counts : List (String × ℕ))
  | excRaised (message : String)
deriving DecidableEq

/-- How the ripgrep subprocess run in probe_grep can end: normal
completion with a return code, parsed per-file counts and stderr;
timeout; or FileNotFoundError for the rg binary, which carries the
outcome of the grep fallback attempt. -/
inductive GrepExec where
  | completed (returncode : Int) (counts : List (String × ℕ)) (stderr : String)
  | timedOut
  | toolNotFound (fb : FallbackExec)
deriving DecidableEq

/-- probes.py _fallback_grep: total matches summed over parsed lines,
confidence 0.5 if total_matches > 0 else 0.1; any exception becomes an
error finding with confidence 0.0. -/
def fallback_grep (_pattern : String) (ex : FallbackExec) : Finding :=
  match ex with
  | .completed counts =>
      let total_matches := (counts.map Prod.snd).sum
      { probe := "grep",
        confidence := some (if 0 < total_matches then 1/2 else 1/10) }
  | .excRaised message =>
      { probe := "grep", confidence := some 0, error := some (some message) }

/-- probes.py probe_grep lines 102-164 for a present pattern: a return
code other than 0 or 1 is an error finding with confidence 0.0; otherwise
the per-file counts are summed and classified 0 matches to 0.1, up to 5
to 0.9, up to 20 to 0.7, else 0.5; a timeout is an error finding with
confidence 0.0; FileNotFoundError defers to the fallback. -/
def probe_grep (pattern : String) (ex : GrepExec) : Finding :=
  match ex with
  | .completed returncode counts stderr =>
      if returncode ≠ 0 ∧ returncode ≠ 1 then
        { probe := "grep", confidence := some 0,
          error := some (some (py_strip stderr)) }
      else
        let total_matches := (counts.map Prod.snd).sum
        let confidence : ℚ :=
          if total_matches = 0 then 1/10
          else if total_matches ≤ 5 then 9/10
          else if total_matches ≤ 20 then 7/10
          else 1/2
        { probe := "grep", confidence := some confidence }
  | .timedOut =>
      { probe := "grep", confidence := some 0,
        error := some (some ("Timeout after " ++ toString PROBE_TIMEOUT ++ "s")) }
  | .toolNotFound fb => fallback_grep pattern fb

/-- The spec's pattern-search classification (sections 4.2 and 8), stated
from its words: 0 matches to 0.1, 1 to 5 matches to 0.9, 6 to 20 matches
to 0.7, more than 20 matches to 0.5. -/
def spec_grep_classification (total_matches : ℕ) : ℚ :=
  if total_matches = 0 then 1/10
  else if 1 ≤ total_matches ∧ total_matches ≤ 5 then 9/10
  else if 6 ≤ total_matches ∧ total_matches ≤ 20 then 7/10
  else 1/2

/-- probes.py probe_command lines 395-402: the whitelist of safe command
prefixes. -/
def safe_prefixes : List String :=
  ["ls", "cat", "head", "tail", "wc", "find", "which", "type",
   "git status", "git log", "git diff", "git branch",
   "docker ps", "docker images",
   "pip list", "pip show",
   "python --version", "node --version",
   "curl -I"]

/-- probes.py probe_command line 404: the stripped command must start
with one of the safe prefixes. -/
def is_safe_command (command : String) : Bool :=
  safe_prefixes.any (fun p => py_startswith (py_strip command) p)

/-- How the diagnostic command subprocess run can end. -/
inductive CmdExec where
  | completed (returncode : Int) (stdout stderr : String)
  | timedOut
  | excRaised (message : String)
deriving DecidableEq

/-- probes.py probe_command lines 404-455 for a present command: the
returned finding paired with whether a subprocess was spawned.  A command
failing the whitelist check is rejected with confidence 0.0 and the fixed
error string and nothing is spawned.  An executed command yields
confidence 0.8 on return code 0 and 0.3 otherwise, and its finding always
carries the error key, holding None when stripped stderr is empty and the
first 500 characters of it otherwise. -/
def probe_command (command : String) (ex : CmdExec) : Finding × Bool :=
  if ¬ is_safe_command command then
    ({ probe := "command", confidence := some 0,
       error := some (some "Command not in safe whitelist") }, false)
  else
    match ex with
    | .completed returncode _ stderr =>
        let error := py_strip stderr
        ({ probe := "command",
           confidence := some (if returncode = 0 then 4/5 else 3/10),
           error := some (if error = "" then none else some (py_take error 500)) },
         true)
    | .timedOut =>
        ({ probe := "command", confidence := some 0,
           error := some (some ("Timeout after " ++ toString PROBE_TIMEOUT ++ "s")) },
         true)
    | .excRaised message =>
        ({ probe := "command", confidence := some 0,
           error := some (some message) }, true)

/-- service_router.dispatch result as escalation.py reads it: a success
flag, the model output, and an optional error string. -/
structure DispatchResult where
  success : Bool
  output : String := ""
  error : Option String := none
deriving DecidableEq

/-- Outcome of one escalation run: the updated task, whether a Telegram
notification was attempted, the action tag of the returned dict, and its
success flag. -/
structure EscalationOutcome where
  task : Task
  notified : Bool
  action : String
  success : Bool
deriving DecidableEq

/-- escalation.py deliver_findings: synthesize, send, mark completed. -/
def deliver_findings (t : Task) : EscalationOutcome :=
  { task := { t with status := .completed },
    notified := true, action := "delivered", success := true }

/-- escalation.py full_escalation lines 172-222: one Opus-tier dispatch;
on success send the analysis and mark completed; on failure mark the task
failed with the backend error recorded in error_message (prefixed) and
still send a failure notification. -/
def full_escalation (t : Task) (opusResult : DispatchResult) : EscalationOutcome :=
  if opusResult.success then
    { task := { t with status := .completed },
      notified := true, action := "full_escalation", success := true }
  else
    let error_msg := opusResult.error.getD "Unknown error"
    let failedTask : Task :=
      { t with status := .failed,
               error_message := some ("Full escalation failed: " ++ error_msg) }
    { task := failedTask,
      notified := true, action := "full_escalation", success := false }

/-- escalation.py quick_escalation lines 110-136: one Sonnet-tier
dispatch; on success send and mark completed; on failure fall through to
full_escalation. -/
def quick_escalation (t : Task) (sonnetResult opusResult : DispatchResult) :
    EscalationOutcome :=
  if sonnetResult.success then
    { task := { t with status := .completed },
      notified := true, action := "quick_escalation", success := true }
  else
    full_escalation t opusResult

/-- escalation.py evaluate_and_escalate lines 43-53: tier selection on
the task's stored confidence. -/
def evaluate_and_escalate (t : Task) (sonnetResult opusResult : DispatchResult) :
    EscalationOutcome :=
  if HIGH_CONFIDENCE_THRESHOLD ≤ t.confidence then
    deliver_findings t
  else if MEDIUM_CONFIDENCE ≤ t.confidence then
    quick_escalation t sonnetResult opusResult
  else
    full_escalation t opusResult

lemma foldl_append_finding (t : Task) (pr : List Finding) :
    (pr.foldl append_finding t).findings = t.findings ++ pr ∧
    (pr.foldl append_finding t).status = t.status ∧
    (pr.foldl append_finding t).retry_count = t.retry_count ∧
    (pr.foldl append_finding t).max_retries = t.max_retries ∧
    (pr.foldl append_finding t).next_run_at = t.next_run_at ∧
    (pr.foldl append_finding t).error_message = t.error_message := by
  induction pr generalizing t with
  | nil => simp
  | cons f fs ih =>
      have h := ih (append_finding t f)
      simpa [append_finding] using h

lemma map_weight_sum_of_no_error (l : List Finding)
    (h : ∀ f ∈ l, f.error = none) :
    (l.map finding_weight).sum = l.length := by
  induction l with
  | nil => simp
  | cons x xs ih =>
      have hx : finding_weight x = 1 := by
        unfold finding_weight
        rw [h x (List.mem_cons_self x xs)]
        simp
      simp [hx, ih (fun f hf => h f (List.mem_cons_of_mem x hf))]
      ring

lemma process_task_char (t : Task) (pr : List Finding) :
    process_task t pr =
      { status := TaskStatus.pending,
        findings := t.findings ++ pr,
        confidence := calculate_confidence (t.findings ++ pr),
        retry_count :=
          if calculate_confidence (t.findings ++ pr) < HIGH_CONFIDENCE_THRESHOLD
              ∧ all_failed pr = true
            then t.retry_count + 1 else t.retry_count,
        max_retries := t.max_retries,
        next_run_at := t.next_run_at,
        error_message := t.error_message } := by
  obtain ⟨hf, hs, hr, hm, hn, he⟩ :=
    foldl_append_finding { t with status := TaskStatus.running } pr
  dsimp only at hf hs hr hm hn he
  simp only [process_task, ite_self]
  set u := List.foldl append_finding { t with status := TaskStatus.running } pr with hu
  rw [hf]
  by_cases h1 : HIGH_CONFIDENCE_THRESHOLD ≤ calculate_confidence (t.findings ++ pr)
  · rw [if_pos h1]
    have hcond :
        ¬ (calculate_confidence (t.findings ++ pr) < HIGH_CONFIDENCE_THRESHOLD
           ∧ all_failed pr = true) := by
      rintro ⟨hc, _⟩
      exact absurd h1 (not_le.mpr hc)
    rw [if_neg hcond]
    simp [Task.mk.injEq, hf, hr, hm, hn, he]
  · rw [if_neg h1]
    by_cases h2 : all_failed pr = true
    · rw [if_pos h2, if_pos ⟨not_le.mp h1, h2⟩]
      simp [Task.mk.injEq, hf, hr, hm, hn, he]
    · rw [if_neg h2]
      have hcond :
          ¬ (calculate_confidence (t.findings ++ pr) < HIGH_CONFIDENCE_THRESHOLD
             ∧ all_failed pr = true) := by
        rintro ⟨_, hc⟩
        exact h2 hc
      rw [if_neg hcond]
      simp [Task.mk.injEq, hf, hr, hm, hn, he]

lemma map_sum_eq_length_of_all_one {α : Type} (l : List α) (g : α → ℚ)
    (h : ∀ x ∈ l, g x = 1) : (l.map g).sum = l.length := by
  induction l with
  | nil => simp
  | cons x xs ih =>
      simp only [List.map_cons, List.sum_cons, List.length_cons]
      rw [h x (List.mem_cons_self x xs),
          ih (fun y hy => h y (List.mem_cons_of_mem x hy))]
      push_cast
      ring

/-- C1 counterexample: on the spec sentence's own example, where the first
finding holds the error key with value null, the aggregator weights both
findings 0.5 (it tests key presence, not value) and returns 0.4, not the
claimed 8/15 which is approximately 0.5333. -/
theorem c1_counterexample_error_null_weighted_half :
    calculate_confidence
      [{ probe := "atlas", confidence := some (4/5), error := some none },
       { probe := "grep", confidence := some 0, error := some (some "x") }] = 2/5 ∧
    calculate_confidence
      [{ probe := "atlas", confidence := some (4/5), error := some none },
       { probe := "grep", confidence := some 0, error := some (some "x") }] ≠ 8/15 := by
  constructor
  · simp [calculate_confidence, finding_weight]
    norm_num
  · simp [calculate_confidence, finding_weight]
    norm_num

/-- C1 amended: the aggregator computes the error-weighted average, the sum
of confidence times weight over the sum of weights, where the weight is 1.0
when the finding dict has no error key and 0.5 when the error key is
present (even holding null); it returns 0.0 on the empty list; and the
claimed value 8/15 (about 0.5333) arises when the 0.8-confidence finding
omits the error key entirely, while the spec's literal example with
error null evaluates to 0.4. -/
theorem c1_aggregate_error_weighted_average :
    (∀ findings : List Finding, calculate_confidence findings = spec_aggregate findings) ∧
    (∀ f : Finding, f.error = none → finding_weight f = 1) ∧
    (∀ f : Finding, f.error.isSome → finding_weight f = 1/2) ∧
    calculate_confidence [] = 0 ∧
    calculate_confidence
      [{ probe := "atlas", confidence := some (4/5) },
       { probe := "grep", confidence := some 0, error := some (some "x") }] = 8/15 ∧
    calculate_confidence
      [{ probe := "atlas", confidence := some (4/5), error := some none },
       { probe := "grep", confidence := some 0, error := some (some "x") }] = 2/5 := by
  refine ⟨calculate_confidence_eq_spec, ?_, ?_, ?_, ?_, ?_⟩
  · intro f hf
    simp [finding_weight, hf]
  · intro f hf
    simp [finding_weight, hf]
  · simp [calculate_confidence]
  · simp [calculate_confidence, finding_weight]
    norm_num
  · simp [calculate_confidence, finding_weight]
    norm_num

/-- C1 witness: the weight clauses of the amended theorem applied to the
two concrete findings of the corrected example. -/
theorem c1_aggregate_error_weighted_average_witness :
    finding_weight { probe := "atlas", confidence := some (4/5) } = 1 ∧
    finding_weight { probe := "atlas", confidence := some (4/5), error := some none } = 1/2 := by
  constructor
  · exact c1_aggregate_error_weighted_average.2.1
      { probe := "atlas", confidence := some (4/5) } rfl
  · exact c1_aggregate_error_weighted_average.2.2.1
      { probe := "atlas", confidence := some (4/5), error := some none } rfl

/-- C3 counterexample: appending an error finding to a task holding one
error-free finding persists the plain average 0.4, while the aggregator's
error-weighted average of the same finding list is 8/15; the two recomputes
disagree. -/
theorem c3_counterexample_append_vs_aggregator :
    (append_finding
        { status := TaskStatus.pending,
          findings := [{ probe := "atlas", confidence := some (4/5) }],
          confidence := 4/5, retry_count := 0, max_retries := 3 }
        { probe := "grep", confidence := some 0, error := some (some "x") }).confidence
      = 2/5 ∧
    calculate_confidence
      (append_finding
        { status := TaskStatus.pending,
          findings := [{ probe := "atlas", confidence := some (4/5) }],
          confidence := 4/5, retry_count := 0, max_retries := 3 }
        { probe := "grep", confidence := some 0, error := some (some "x") }).findings
      = 8/15 ∧
    (2 : ℚ)/5 ≠ 8/15 := by
  refine ⟨?_, ?_, by norm_num⟩
  · simp [append_finding, append_finding_confidence]
    norm_num
  · simp [append_finding, calculate_confidence, finding_weight]
    norm_num

/-- C3 amended: append_finding persists the plain unweighted average of the
confidences of the findings that carry a confidence key, not the error-
weighted aggregate; the two recomputes agree on every finding list in which
no finding has an error key and every finding carries a confidence key, but
differ in general. -/
theorem c3_append_finding_recompute (t : Task) (f : Finding)
    (h : ∀ g ∈ t.findings ++ [f], g.error = none ∧ g.confidence.isSome) :
    (append_finding t f).findings = t.findings ++ [f] ∧
    (append_finding t f).confidence = append_finding_confidence (t.findings ++ [f]) ∧
    (append_finding t f).confidence = calculate_confidence (t.findings ++ [f]) := by
  refine ⟨rfl, rfl, ?_⟩
  show append_finding_confidence (t.findings ++ [f]) = _
  set l := t.findings ++ [f] with hl
  have hne : l ≠ [] := by
    rw [hl]
    exact List.append_ne_nil_of_right_ne_nil _ (by simp)
  have hfilter : l.filter (fun g => g.confidence.isSome) = l :=
    List.filter_eq_self.mpr (fun g hg => (h g hg).2)
  have hweight : (l.map finding_weight).sum = l.length :=
    map_sum_eq_length_of_all_one l finding_weight
      (fun g hg => by simp [finding_weight, (h g hg).1])
  have hterm :
      l.map (fun g => g.confidence.getD 0 * finding_weight g)
        = l.map (fun g => g.confidence.getD 0) := by
    apply List.map_congr_left
    intro g hg
    simp [finding_weight, (h g hg).1]
  rw [calculate_confidence_eq_spec]
  unfold append_finding_confidence spec_aggregate
  rw [hfilter]
  simp only [List.isEmpty_iff, hne, if_false, if_neg, hterm, hweight]
  have hlen : l.length ≠ 0 := by
    simp [hne]
  simp [hlen]

/-- C3 witness: the amended theorem applied to a task with one error-free
finding and an appended error-free finding; both recomputes give the plain
average 0.6. -/
theorem c3_append_finding_recompute_witness :
    (append_finding
        { status := TaskStatus.pending,
          findings := [{ probe := "atlas", confidence := some (4/5) }],
          confidence := 4/5, retry_count := 0, max_retries := 3 }
        { probe := "grep", confidence := some (2/5) }).confidence
      = calculate_confidence
          ([{ probe := "atlas", confidence := some (4/5) }]
            ++ [{ probe := "grep", confidence := some (2/5) }]) := by
  exact (c3_append_finding_recompute
    { status := TaskStatus.pending,
      findings := [{ probe := "atlas", confidence := some (4/5) }],
      confidence := 4/5, retry_count := 0, max_retries := 3 }
    { probe := "grep", confidence := some (2/5) }
    (by intro g hg; simp at hg; rcases hg with h1 | h1 <;> simp [h1])).2.2

/-- C7 counterexample: a single finding carrying an error but confidence
0.3 (as a whitelisted diagnostic command exiting nonzero produces)
aggregates to 0.3, not 0.0; carrying an error alone does not force a zero
aggregate. -/
theorem c7_counterexample_error_with_nonzero_confidence :
    calculate_confidence
      [{ probe := "command", confidence := some (3/10),
         error := some (some "exit status 1") }] = 3/10 ∧
    calculate_confidence
      [{ probe := "command", confidence := some (3/10),
         error := some (some "exit status 1") }] ≠ 0 := by
  constructor
  · simp [calculate_confidence, finding_weight]
  · simp [calculate_confidence, finding_weight]

/-- C7 amended: every non-empty finding list in which every finding carries
an error and contributes confidence 0 (a missing confidence key defaults to
0) aggregates to exactly 0.0. -/
theorem c7_all_error_zero_findings_aggregate_zero (findings : List Finding)
    (hne : findings ≠ [])
    (h : ∀ f ∈ findings, f.error.isSome ∧ f.confidence.getD 0 = 0) :
    calculate_confidence findings = 0 := by
  rw [calculate_confidence_eq_spec]
  unfold spec_aggregate
  have hnum :
      findings.map (fun f => f.confidence.getD 0 * finding_weight f)
        = findings.map (fun _ => (0 : ℚ)) := by
    apply List.map_congr_left
    intro f hf
    rw [(h f hf).2, zero_mul]
  simp [List.isEmpty_iff, hne, hnum]

/-- The finding an unreachable health-check URL pass yields: an error
value and confidence 0.0. -/
def unreachable_url_finding : Finding :=
  { probe := "api_check", confidence := some 0,
    error := some (some "connection refused") }

/-- A freshly created background task (database.py create_background_task:
status pending, no findings, confidence 0.0, retry_count 0, default
max_retries 3). -/
def fresh_probe_task : Task :=
  { status := TaskStatus.pending, findings := [], confidence := 0,
    retry_count := 0, max_retries := 3 }

/-- The same task after two all-failed passes: two error findings,
confidence 0.0, retry_count 2 of max 3. -/
def c2_exhausted_task : Task :=
  { status := TaskStatus.pending,
    findings := [unreachable_url_finding, unreachable_url_finding],
    confidence := 0, retry_count := 2, max_retries := 3 }

/-- C4 counterexample: on a fresh task whose only probe yields an error
finding, the all-failed branch increments retry_count to 1 (below
max_retries 3) and keeps the task pending, but leaves next_run_at none
rather than setting it 60 seconds ahead — no backoff is applied, so the
task is immediately eligible for re-pickup. -/
theorem c4_counterexample_no_backoff_applied :
    (process_task fresh_probe_task [unreachable_url_finding]).status
      = TaskStatus.pending ∧
    (process_task fresh_probe_task [unreachable_url_finding]).retry_count = 1 ∧
    (1 : ℕ) < 3 ∧
    (process_task fresh_probe_task [unreachable_url_finding]).max_retries = 3 ∧
    (process_task fresh_probe_task [unreachable_url_finding]).next_run_at = none ∧
    pending_eligible (process_task fresh_probe_task [unreachable_url_finding]) 0
      = true := by
  simp [fresh_probe_task, unreachable_url_finding, process_task, append_finding,
        append_finding_confidence, calculate_confidence, finding_weight, all_failed,
        probe_result_failed, HIGH_CONFIDENCE_THRESHOLD, pending_eligible]
  norm_num

/-- C4 amended: after an all-failed pass whose aggregate stays below the
high threshold and whose incremented retry_count is still below
max_retries, the task is kept pending with the recomputed confidence and
incremented retry_count, but next_run_at is left unchanged — no 60-second
backoff is applied on this path, so a task with no scheduled next run stays
immediately eligible for re-pickup; the 60-second backoff exists only on
the exception path of task processing. -/
theorem c4_all_failed_below_max_keeps_pending_without_backoff
    (t : Task) (pr : List Finding) (now : ℕ)
    (hconf : calculate_confidence (t.findings ++ pr) < HIGH_CONFIDENCE_THRESHOLD)
    (hfail : all_failed pr = true)
    (hretry : t.retry_count + 1 < t.max_retries) :
    (process_task t pr).status = TaskStatus.pending ∧
    (process_task t pr).retry_count = t.retry_count + 1 ∧
    (process_task t pr).next_run_at = t.next_run_at ∧
    (t.next_run_at = none → pending_eligible (process_task t pr) now = true) ∧
    (∀ message : String,
        (process_task_exception t message now).next_run_at = some (now + 60)) := by
  rw [process_task_char]
  refine ⟨rfl, by simp [hconf, hfail], rfl, ?_, ?_⟩
  · intro hnone
    simp [pending_eligible, hnone]
  · intro message
    have h : ¬ (t.max_retries ≤ t.retry_count + 1) := by omega
    simp [process_task_exception, h]

/-- C4 witness: the amended theorem applied to a fresh task and one
unreachable-URL error finding at time 0. -/
theorem c4_all_failed_below_max_keeps_pending_without_backoff_witness :
    (process_task fresh_probe_task [unreachable_url_finding]).retry_count
      = fresh_probe_task.retry_count + 1 ∧
    (process_task fresh_probe_task [unreachable_url_finding]).next_run_at
      = fresh_probe_task.next_run_at ∧
    (process_task_exception fresh_probe_task "probe pass raised" 0).next_run_at
      = some (0 + 60) := by
  have h := c4_all_failed_below_max_keeps_pending_without_backoff
    fresh_probe_task [unreachable_url_finding] 0
    (by simp [fresh_probe_task, unreachable_url_finding, calculate_confidence,
              finding_weight, HIGH_CONFIDENCE_THRESHOLD])
    (by simp [all_failed, probe_result_failed, unreachable_url_finding])
    (by simp [fresh_probe_task])
  exact ⟨h.2.1, h.2.2.1, h.2.2.2.2 "probe pass raised"⟩

/-- C2: on a task at retry_count 2 of 3 whose third all-failed pass
exhausts the budget, the code indeed does not mark the task failed — it is
set pending with confidence 0.0 — but the escalation query (status pending
and confidence at least the 0.8 threshold) does not select it, so the
escalation pass never picks it up and no Low-tier escalation runs;
instead the task stays eligible for the ordinary pending pass. -/
theorem c2_exhausted_task_never_selected_for_escalation :
    (process_task c2_exhausted_task [unreachable_url_finding]).status
      = TaskStatus.pending ∧
    (process_task c2_exhausted_task [unreachable_url_finding]).status
      ≠ TaskStatus.failed ∧
    (process_task c2_exhausted_task [unreachable_url_finding]).retry_count = 3 ∧
    (process_task c2_exhausted_task [unreachable_url_finding]).max_retries = 3 ∧
    (process_task c2_exhausted_task [unreachable_url_finding]).confidence = 0 ∧
    ready_for_escalation (process_task c2_exhausted_task [unreachable_url_finding])
      HIGH_CONFIDENCE_THRESHOLD = false ∧
    pending_eligible (process_task c2_exhausted_task [unreachable_url_finding]) 0
      = true := by
  simp [c2_exhausted_task, unreachable_url_finding, process_task, append_finding,
        append_finding_confidence, calculate_confidence, finding_weight, all_failed,
        probe_result_failed, HIGH_CONFIDENCE_THRESHOLD, pending_eligible,
        ready_for_escalation]
  norm_num
  decide

/-- C8: four consecutive all-failed passes on a fresh task with
max_retries 3 leave it with status pending and retry_count 4, violating
the invariant that retry_count stays at most max_retries while the status
is pending, and the task is still eligible for another pending pass — the
count grows without the task ever becoming failed or escalated. -/
theorem c8_retry_count_exceeds_max_while_pending :
    (process_task (process_task (process_task (process_task fresh_probe_task
        [unreachable_url_finding]) [unreachable_url_finding])
        [unreachable_url_finding]) [unreachable_url_finding]).retry_count = 4 ∧
    (process_task (process_task (process_task (process_task fresh_probe_task
        [unreachable_url_finding]) [unreachable_url_finding])
        [unreachable_url_finding]) [unreachable_url_finding]).max_retries = 3 ∧
    (process_task (process_task (process_task (process_task fresh_probe_task
        [unreachable_url_finding]) [unreachable_url_finding])
        [unreachable_url_finding]) [unreachable_url_finding]).status
      = TaskStatus.pending ∧
    pending_eligible
      (process_task (process_task (process_task (process_task fresh_probe_task
        [unreachable_url_finding]) [unreachable_url_finding])
        [unreachable_url_finding]) [unreachable_url_finding]) 0 = true := by
  simp [fresh_probe_task, unreachable_url_finding, process_task, append_finding,
        append_finding_confidence, calculate_confidence, finding_weight, all_failed,
        probe_result_failed, HIGH_CONFIDENCE_THRESHOLD, pending_eligible]
  norm_num

/-- C5: a command failing the whitelist check is returned as a finding
with confidence exactly 0.0 and the fixed error string, with no subprocess
spawned, whatever the hypothetical execution outcome would have been; and
conversely a subprocess is spawned only for commands passing the
whitelist check. -/
theorem c5_unsafe_commands_rejected_never_spawned :
    (∀ (command : String) (ex : CmdExec),
        is_safe_command command = false →
        probe_command command ex =
          ({ probe := "command", confidence := some 0,
             error := some (some "Command not in safe whitelist") }, false)) ∧
    (∀ (command : String) (ex : CmdExec),
        (probe_command command ex).2 = true →
        is_safe_command command = true) := by
  constructor
  · intro command ex h
    simp [probe_command, h]
  · intro command ex h
    by_contra hc
    rw [Bool.not_eq_true] at hc
    simp [probe_command, hc] at h

/-- C5 witness: the destructive command rm -rf / fails the whitelist and
is rejected unexecuted. -/
theorem c5_unsafe_commands_rejected_never_spawned_witness :
    is_safe_command "rm -rf /" = false ∧
    probe_command "rm -rf /" (CmdExec.completed 0 "" "") =
      ({ probe := "command", confidence := some 0,
         error := some (some "Command not in safe whitelist") }, false) := by
  refine ⟨by decide, ?_⟩
  exact c5_unsafe_commands_rejected_never_spawned.1
    "rm -rf /" (CmdExec.completed 0 "" "") (by decide)

lemma probe_grep_completed_confidence (pattern stderr : String) (rc : Int)
    (counts : List (String × ℕ)) (hrc : rc = 0 ∨ rc = 1) :
    (probe_grep pattern (.completed rc counts stderr)).confidence
      = some (spec_grep_classification ((counts.map Prod.snd).sum)) := by
  have hcond : ¬ (rc ≠ 0 ∧ rc ≠ 1) := by
    rcases hrc with h | h <;> simp [h]
  simp only [probe_grep, if_neg hcond]
  unfold spec_grep_classification
  split_ifs <;> first | rfl | (exfalso; omega)

/-- C6: for a completed primary search (return code 0 or 1), the probe's
confidence is exactly the spec classification of the summed match count —
0 matches 0.1, 1 to 5 matches 0.9, 6 to 20 matches 0.7, more than 20
matches 0.5 — and depends on nothing but that total; on tool-not-found the
fallback search yields confidence 0.5 when any match was found and 0.1
otherwise; the spec's four sample points evaluate as stated. -/
theorem c6_grep_confidence_classified_by_match_count :
    (∀ (pattern stderr : String) (rc : Int) (counts : List (String × ℕ)),
        rc = 0 ∨ rc = 1 →
        (probe_grep pattern (.completed rc counts stderr)).confidence
          = some (spec_grep_classification ((counts.map Prod.snd).sum))) ∧
    (∀ (p1 p2 s1 s2 : String) (rc1 rc2 : Int) (c1 c2 : List (String × ℕ)),
        rc1 = 0 ∨ rc1 = 1 → rc2 = 0 ∨ rc2 = 1 →
        (c1.map Prod.snd).sum = (c2.map Prod.snd).sum →
        (probe_grep p1 (.completed rc1 c1 s1)).confidence
          = (probe_grep p2 (.completed rc2 c2 s2)).confidence) ∧
    (∀ (pattern : String) (counts : List (String × ℕ)),
        (probe_grep pattern (.toolNotFound (.completed counts))).confidence
          = some (if 0 < (counts.map Prod.snd).sum then (1 : ℚ)/2 else 1/10)) ∧
    spec_grep_classification 0 = 1/10 ∧
    spec_grep_classification 3 = 9/10 ∧
    spec_grep_classification 12 = 7/10 ∧
    spec_grep_classification 40 = 1/2 := by
  refine ⟨probe_grep_completed_confidence, ?_, ?_, ?_, ?_, ?_, ?_⟩
  · intro p1 p2 s1 s2 rc1 rc2 c1 c2 h1 h2 hsum
    rw [probe_grep_completed_confidence p1 s1 rc1 c1 h1,
        probe_grep_completed_confidence p2 s2 rc2 c2 h2, hsum]
  · intro pattern counts
    simp [probe_grep, fallback_grep]
  · norm_num [spec_grep_classification]
  · norm_num [spec_grep_classification]
  · norm_num [spec_grep_classification]
  · norm_num [spec_grep_classification]

/-- C6 witness: a completed search with 3 matches in one file classifies
to 0.9, and the fallback with no matches to 0.1. -/
theorem c6_grep_confidence_classified_by_match_count_witness :
    (probe_grep "TODO" (.completed 0 [("main.py", 3)] "")).confidence
      = some (spec_grep_classification (([("main.py", 3)].map Prod.snd).sum)) ∧
    spec_grep_classification 3 = 9/10 := by
  exact ⟨c6_grep_confidence_classified_by_match_count.1
           "TODO" "" 0 [("main.py", 3)] (Or.inl rfl),
         c6_grep_confidence_classified_by_match_count.2.2.2.2.1⟩

/-- C9: a failed Sonnet-tier call makes quick_escalation return exactly
what full_escalation returns (the failure cascades one tier down instead
of failing the task — in particular the task completes when the Opus tier
then succeeds); a failed Opus-tier call marks the task failed, records the
backend's error inside error_message, and still attempts the failure
notification. -/
theorem c9_escalation_failure_cascades_one_tier :
    (∀ (t : Task) (sonnetResult opusResult : DispatchResult),
        sonnetResult.success = false →
        quick_escalation t sonnetResult opusResult = full_escalation t opusResult) ∧
    (∀ (t : Task) (sonnetResult opusResult : DispatchResult),
        sonnetResult.success = false → opusResult.success = true →
        (quick_escalation t sonnetResult opusResult).task.status
          = TaskStatus.completed) ∧
    (∀ (t : Task) (opusResult : DispatchResult),
        opusResult.success = false →
        (full_escalation t opusResult).task.status = TaskStatus.failed ∧
        (full_escalation t opusResult).task.error_message
          = some ("Full escalation failed: " ++ opusResult.error.getD "Unknown error") ∧
        (full_escalation t opusResult).notified = true) := by
  refine ⟨?_, ?_, ?_⟩
  · intro t s o hs
    simp [quick_escalation, hs]
  · intro t s o hs ho
    simp [quick_escalation, full_escalation, hs, ho]
  · intro t o ho
    simp [full_escalation, ho]

/-- A task sitting in the Low tier (confidence 0.5) for the escalation
witness. -/
def low_tier_task : Task :=
  { status := TaskStatus.pending, findings := [], confidence := 1/2,
    retry_count := 0, max_retries := 3 }

/-- A failed reasoning-backend dispatch for the escalation witness. -/
def failed_dispatch : DispatchResult :=
  { success := false, error := some "backend unavailable" }

/-- C9 witness: with both backends failing, the Medium tier falls through
to the Low tier, and the Low tier marks the task failed with the backend
error recorded and the notification attempted. -/
theorem c9_escalation_failure_cascades_one_tier_witness :
    quick_escalation low_tier_task failed_dispatch failed_dispatch
      = full_escalation low_tier_task failed_dispatch ∧
    (full_escalation low_tier_task failed_dispatch).task.status
      = TaskStatus.failed ∧
    (full_escalation low_tier_task failed_dispatch).task.error_message
      = some "Full escalation failed: backend unavailable" ∧
    (full_escalation low_tier_task failed_dispatch).notified = true := by
  have h := c9_escalation_failure_cascades_one_tier.2.2 low_tier_task
    failed_dispatch rfl
  exact ⟨c9_escalation_failure_cascades_one_tier.1 low_tier_task
           failed_dispatch failed_dispatch rfl,
         h.1, h.2.1, h.2.2⟩

/-- C10: the aggregator weights a finding 0.5 exactly when the error key
is present, whatever its value — in particular a present key holding None
is down-weighted; and every finding a whitelisted diagnostic command
execution produces carries the error key (holding None when stripped
stderr is empty), so it always receives weight 0.5 rather than 1.0. -/
theorem c10_error_key_presence_downweights :
    (∀ f : Finding, f.error.isSome → finding_weight f = 1/2) ∧
    (∀ f : Finding, f.error = some none → finding_weight f = 1/2) ∧
    (∀ f : Finding, f.error = none → finding_weight f = 1) ∧
    (∀ (command stdout stderr : String) (rc : Int),
        is_safe_command command = true →
        (probe_command command (.completed rc stdout stderr)).1.error.isSome = true ∧
        finding_weight (probe_command command (.completed rc stdout stderr)).1 = 1/2) ∧
    (∀ (command stdout : String) (rc : Int),
        is_safe_command command = true →
        (probe_command command (.completed rc stdout "")).1.error = some none) := by
  refine ⟨?_, ?_, ?_, ?_, ?_⟩
  · intro f hf
    simp [finding_weight, hf]
  · intro f hf
    simp [finding_weight, hf]
  · intro f hf
    simp [finding_weight, hf]
  · intro command stdout stderr rc h
    constructor <;> simp [probe_command, h, finding_weight]
  · intro command stdout rc h
    have hstrip : py_strip "" = "" := by decide
    simp [probe_command, h, hstrip]

/-- C10 witness: a successfully executed whitelisted command with empty
stderr yields a finding whose error key is present holding None, weighted
0.5 by the aggregator. -/
theorem c10_error_key_presence_downweights_witness :
    (probe_command "ls -la" (.completed 0 "files" "")).1.error = some none ∧
    finding_weight (probe_command "ls -la" (.completed 0 "files" "")).1 = 1/2 := by
  exact ⟨c10_error_key_presence_downweights.2.2.2.2 "ls -la" "files" 0 (by decide),
         (c10_error_key_presence_downweights.2.2.2.1 "ls -la" "files" "" 0
           (by decide)).2⟩

/-- C7 witness: the amended theorem applied to a two-element all-error,
all-zero-confidence list. -/
theorem c7_all_error_zero_findings_aggregate_zero_witness :
    calculate_confidence
      [{ probe := "atlas", confidence := some 0, error := some (some "not available") },
       { probe := "grep", confidence := some 0, error := some (some "timeout") }] = 0 := by
  exact c7_all_error_zero_findings_aggregate_zero
    [{ probe := "atlas", confidence := some 0, error := some (some "not available") },
     { probe := "grep", confidence := some 0, error := some (some "timeout") }]
    (by simp)
    (by intro f hf; simp at hf; rcases hf with h1 | h1 <;> simp [h1])

end Penny
